import Mathlib

/-!
Shallow embedding of the cohort-stratification and statistical-comparison
logic of the TCC_analise_dados analysis scripts.

The scripts load one tabular dataset (rows = samples, columns = gene
expression values plus clinical columns), classify each sample as
"expressed" for a gene when its value is strictly positive, build cohorts
(presence-based split, multi-gene AND group, aggregate median split) and
guard the statistical tests (log-rank, Cox, chi-square) behind
sample-size checks with textual fallbacks.

Numeric cell values are modelled as `Option ℚ`, where `none` stands for a
pandas `NaN` / missing entry.  External statistical routines (lifelines
`logrank_test`, `CoxPHFitter`, scipy `chi2_contingency`, `norm.ppf`) are
not re-implemented: the embedding records exactly which data would be
passed to them, or abstracts them as function parameters, so that the
guard and fallback logic of the scripts themselves can be verified.
-/

/-- Column name of the survival time in days, `OS_Time_nature2012`. -/
def COL_TEMPO : String := "OS_Time_nature2012"

/-- Column name of the survival event indicator, `OS_event_nature2012`. -/
def COL_EVENTO : String := "OS_event_nature2012"

/-- Column name of the PAM50 molecular subtype, `PAM50Call_RNAseq`. -/
def COL_PAM50 : String := "PAM50Call_RNAseq"

/-- One dataframe row: the numeric columns as an association list (a key
mapped to `none`, or an absent key, models a pandas `NaN`), together with
the categorical PAM50 subtype column kept apart because it is
string-valued. -/
structure Row where
  vals : List (String × Option ℚ)
  subtype : Option String := none
deriving DecidableEq

/-- Value of a numeric column in a row; an absent key behaves as `NaN`. -/
def Row.get (r : Row) (c : String) : Option ℚ :=
  match r.vals.lookup c with
  | some v => v
  | none => none

/-- A loaded dataframe: the column names and the list of rows. -/
structure DataFrame where
  cols : List String
  rows : List Row
deriving DecidableEq

/-- Elementwise comparison `series > 0` as pandas evaluates it:
`NaN > 0` is `False`. -/
def pandasGtZero (v : Option ℚ) : Bool :=
  match v with
  | some x => decide (0 < x)
  | none => false

/-- Row-wise sum `df[cols].sum(axis=1)` with the pandas default
`skipna=True`: missing entries contribute nothing. -/
def rowSum (r : Row) (cs : List String) : ℚ :=
  (cs.map (fun c => (r.get c).getD 0)).sum

/-- Insert a rational into an already sorted list. -/
def insertQ (x : ℚ) : List ℚ → List ℚ
  | [] => [x]
  | y :: ys => if x ≤ y then x :: y :: ys else y :: insertQ x ys

/-- Insertion sort on rationals, used to model the sorting step of the
pandas median. -/
def sortQ : List ℚ → List ℚ
  | [] => []
  | x :: xs => insertQ x (sortQ xs)

/-- Median as `Series.median()` computes it: sort the values, take the
middle one for odd length and the mean of the two middle ones for even
length; the median of an empty series is `NaN`, modelled as `none`. -/
def pandasMedian (xs : List ℚ) : Option ℚ :=
  let n := xs.length
  if n = 0 then none
  else
    let s := sortQ xs
    if n % 2 = 1 then some ((s[n / 2]?).getD 0)
    else some ((((s[n / 2 - 1]?).getD 0) + ((s[n / 2]?).getD 0)) / 2)

/-- Lexicographic code-point comparison of character lists, the order
Python, numpy and pandas use on strings. -/
def charListLe : List Char → List Char → Bool
  | [], _ => true
  | _ :: _, [] => false
  | c :: cs, d :: ds =>
    if c.toNat < d.toNat then true
    else if d.toNat < c.toNat then false
    else charListLe cs ds

/-- Lexicographic code-point comparison of strings. -/
def strLe (a b : String) : Bool :=
  charListLe a.data b.data

/-- Insert a string into an already sorted list. -/
def insertStr (x : String) : List String → List String
  | [] => [x]
  | y :: ys => if strLe x y then x :: y :: ys else y :: insertStr x ys

/-- Insertion sort on strings (lexicographic by code point, the order
numpy and pandas use for label sorting). -/
def sortStr : List String → List String
  | [] => []
  | x :: xs => insertStr x (sortStr xs)

/-- Collapse adjacent duplicates of a sorted list. -/
def dedupAdjStr : List String → List String
  | [] => []
  | [x] => [x]
  | x :: y :: ys => if x = y then dedupAdjStr (y :: ys) else x :: dedupAdjStr (y :: ys)

/-- Sorted list of the distinct labels, modelling `np.sort(s.unique())`
and the sorted label sets of `pd.crosstab`. -/
def sortedUnique (xs : List String) : List String :=
  dedupAdjStr (sortStr xs)

/-- Data handed to an external survival test, or the insufficient-data
fallback of the plotting functions. -/
inductive SurvOutcome where
  | insuficiente
  | logrank2 (tA eA tB eB : List (Option ℚ))
  | logrankMulti (t e : List (Option ℚ)) (g : List String)
deriving DecidableEq

/-- Result of one cohort-by-subtype association: the comparison was
skipped before testing, or a p-value was reported (`logged` records
whether the chi-square failure branch printed its warning and left the
0.99 sentinel in place). -/
inductive ChiOutcome where
  | pulado
  | pvalor (p : ℚ) (logged : Bool)
deriving DecidableEq

namespace GenesEos

/-- Genes of interest of `s2_mamanalysis_geneseos.py`. -/
def genes_of_interest : List String := ["PRG2", "EPX", "CLC", "IL5RA"]

/-- Derived boolean column `df_merged[gene] > 0` built for each present
gene of interest (`binary_cols` loop of `s2_mamanalysis_geneseos.py`). -/
def colExpresso (df : DataFrame) (gene : String) : List Bool :=
  df.rows.map (fun r => pandasGtZero (r.get gene))

/-- Outcome of one row of the `Correlacao_Continua` sheet: either the Cox
model is fitted on the retained `(time, event, expression)` rows, or the
row is marked `Dados insuficientes` with no hazard ratio. -/
inductive CoxOutcome where
  | insuficiente
  | fitCox (dados : List (ℚ × ℚ × ℚ))
deriving DecidableEq

/-- Row retained by `group_df[[col_tempo, col_evento, gene]].dropna()`. -/
def coxRowValid (gene : String) (r : Row) : Bool :=
  (r.get COL_TEMPO).isSome && (r.get COL_EVENTO).isSome && (r.get gene).isSome

/-- Guarded Cox analysis of `s2_mamanalysis_geneseos.py`: after dropping
rows with missing values, the fit runs only when
`df_cox.shape[0] > 10 and df_cox[col_evento].sum() > 1`; otherwise the
row reports `Dados insuficientes`. -/
def coxAnalise (rows : List Row) (gene : String) : CoxOutcome :=
  let dfCox := rows.filter (coxRowValid gene)
  if 10 < dfCox.length ∧ 1 < (dfCox.map (fun r => (r.get COL_EVENTO).getD 0)).sum then
    CoxOutcome.fitCox
      (dfCox.map (fun r =>
        ((r.get COL_TEMPO).getD 0, (r.get COL_EVENTO).getD 0, (r.get gene).getD 0)))
  else CoxOutcome.insuficiente

end GenesEos

namespace S3Surv

/-- Genes of interest of `s3_mamanalysis_survival.py`. -/
def GENES_INTERESSE : List String := ["PRG2", "EPX", "CLC", "IL5RA"]

/-- Comparison-group columns added to the dataframe by
`definir_grupos_comparacao` of `s3_mamanalysis_survival.py`. -/
structure Grupos where
  g4 : String
  gPRG2 : String
  gCLC : String
  gIL5RA : String
  gEPX : String
deriving DecidableEq

/-- Group definition of `s3_mamanalysis_survival.py`: every gene of
interest gets a boolean `>0` column, and the five comparison columns are
derived from those booleans with `np.where`; if any gene of interest is
missing from the columns the function returns `None`. -/
def definir_grupos_comparacao (df : DataFrame) : Option (List (Row × Grupos)) :=
  if GENES_INTERESSE.all (fun g => decide (g ∈ df.cols)) then
    some (df.rows.map (fun r =>
      let prg2 := pandasGtZero (r.get "PRG2")
      let epx := pandasGtZero (r.get "EPX")
      let clc := pandasGtZero (r.get "CLC")
      let il5ra := pandasGtZero (r.get "IL5RA")
      let g4all := prg2 && epx && clc && il5ra
      (r, { g4 := if g4all then "CLC_EPX_IL5RA_PRG2" else "Demais"
            gPRG2 := if prg2 then "Expressa PRG2" else "Não Expressa PRG2"
            gCLC := if clc then "Expressa CLC" else "Não Expressa CLC"
            gIL5RA := if il5ra then "Expressa IL5RA" else "Não Expressa IL5RA"
            gEPX := if epx then "Expressa EPX" else "Não Expressa EPX" })))
  else none

/-- Row kept by `dropna(subset=[COL_TEMPO, COL_EVENTO, coluna_grupo])`
(the group label of the pair is always present). -/
def temSobrevida (p : Row × String) : Bool :=
  (p.1.get COL_TEMPO).isSome && (p.1.get COL_EVENTO).isSome

/-- Day-to-month conversion `T = df_plot[COL_TEMPO] / 30.44`. -/
def diasParaMeses (v : Option ℚ) : Option ℚ :=
  v.map (fun x => x / (761 / 25))

/-- Rows surviving the filters of `plotar_sobrevida`. -/
def sobrevidaKept (rows : List (Row × String)) : List (Row × String) :=
  rows.filter (fun p => temSobrevida p && (p.2 != "Ignorar"))

/-- Kaplan-Meier comparison of `plotar_sobrevida`
(`s3_mamanalysis_survival.py`): after dropping rows with missing
time/event and the `Ignorar` label, the comparison is skipped when the
data is empty or fewer than two distinct group labels remain; with
exactly two labels (sorted) a two-sample log-rank test is run on the
month-converted times, with more labels the multivariate log-rank test. -/
def plotar_sobrevida (rows : List (Row × String)) : SurvOutcome :=
  let kept := sobrevidaKept rows
  let labs := sortedUnique (kept.map (fun p => p.2))
  if kept.isEmpty || labs.length < 2 then SurvOutcome.insuficiente
  else if labs.length = 2 then
    let a := (labs[0]?).getD ""
    let b := (labs[1]?).getD ""
    let ka := kept.filter (fun p => p.2 == a)
    let kb := kept.filter (fun p => p.2 == b)
    SurvOutcome.logrank2
      (ka.map (fun p => diasParaMeses (p.1.get COL_TEMPO)))
      (ka.map (fun p => p.1.get COL_EVENTO))
      (kb.map (fun p => diasParaMeses (p.1.get COL_TEMPO)))
      (kb.map (fun p => p.1.get COL_EVENTO))
  else
    SurvOutcome.logrankMulti
      (kept.map (fun p => diasParaMeses (p.1.get COL_TEMPO)))
      (kept.map (fun p => p.1.get COL_EVENTO))
      (kept.map (fun p => p.2))

/-- Contingency table `pd.crosstab(groups, subtypes)`: counts indexed by
the sorted distinct group labels (rows) and subtype labels (columns). -/
def crosstab (pares : List (String × String)) : List (List ℕ) :=
  let rs := sortedUnique (pares.map (fun p => p.1))
  let cs := sortedUnique (pares.map (fun p => p.2))
  rs.map (fun r => cs.map (fun c => pares.countP (fun p => p.1 == r && p.2 == c)))

/-- Rows surviving the filters of `plotar_pam50`: subtype present, label
not `Ignorar`, and the `Normal` subtype removed. -/
def pam50Kept (rows : List (Row × String)) : List (Row × String) :=
  (rows.filter (fun p => p.1.subtype.isSome && (p.2 != "Ignorar"))).filter
    (fun p => p.1.subtype != some "Normal")

/-- Contingency table handed to `chi2_contingency` by `plotar_pam50`. -/
def pam50Tabela (rows : List (Row × String)) : List (List ℕ) :=
  crosstab ((pam50Kept rows).map (fun p => (p.2, (p.1.subtype).getD "")))

/-- Cohort-by-subtype association of `plotar_pam50`
(`s3_mamanalysis_survival.py`; `s3_mamanalysis_manutenção.py` lines
196-203 are identical): `p_valor` is initialised to `0.99`, the external
`chi2_contingency` (passed here as the parameter `chi2`) is attempted,
and a raised `ValueError` is caught and logged, leaving the 0.99
sentinel as the reported p-value. -/
def plotar_pam50 (chi2 : List (List ℕ) → Except Unit ℚ) (rows : List (Row × String)) :
    ChiOutcome :=
  let kept := pam50Kept rows
  let subtipos := sortedUnique (kept.map (fun p => (p.1.subtype).getD ""))
  if kept.isEmpty || subtipos.length < 2 then ChiOutcome.pulado
  else
    match chi2 (pam50Tabela rows) with
    | Except.error _ => ChiOutcome.pvalor (99 / 100) true
    | Except.ok p => ChiOutcome.pvalor p false

/-- Result of `main` of `s3_mamanalysis_survival.py` after the CSV is
loaded: missing essential columns end the run before any comparison,
a `None` from the group definition ends the run, and otherwise all five
comparison columns are plotted. -/
inductive MainResult where
  | colunasFaltando (faltando : List String)
  | gruposFalharam
  | executa (comparacoes : List String)
deriving DecidableEq

/-- Columns `main` requires before doing anything else. -/
def colunas_essenciais : List String :=
  GENES_INTERESSE ++ [COL_TEMPO, COL_EVENTO, COL_PAM50]

/-- Control flow of `main` of `s3_mamanalysis_survival.py` after loading. -/
def mainModel (df : DataFrame) : MainResult :=
  let faltando := colunas_essenciais.filter (fun c => decide (c ∉ df.cols))
  if faltando.isEmpty then
    match definir_grupos_comparacao df with
    | none => MainResult.gruposFalharam
    | some _ =>
      MainResult.executa
        ["grupo_4_vs_outros", "grupo_PRG2_vs_Nao", "grupo_CLC_vs_Nao",
         "grupo_IL5RA_vs_Nao", "grupo_EPX_vs_Nao"]
  else MainResult.colunasFaltando faltando

/-- Comparison columns actually plotted by one run of `main`. -/
def comparacoesExecutadas (df : DataFrame) : List String :=
  match mainModel df with
  | MainResult.executa cs => cs
  | _ => []

end S3Surv

namespace ManutIL5

/-- Strict median-split label of `create_survival_groups`
(`survival_manut_IL5.py`): every sample starts as `Excluído`, samples
strictly above the median become `Alta Expressão` and samples strictly
below become `Baixa Expressão`. -/
def strictLabel (m s : ℚ) : String :=
  if m < s then "Alta Expressão" else if s < m then "Baixa Expressão" else "Excluído"

/-- Strict-mode `create_survival_groups` of `survival_manut_IL5.py`:
sum the expression of the genes of the list that exist as columns
(`None` if none does), split at the median of that sum with the strict
labels, drop the `Excluído` rows, and report how many were dropped. -/
def create_survival_groups (df : DataFrame) (gene_list : List String) :
    Option (List (Row × String) × ℕ) :=
  let expression_cols := gene_list.filter (fun g => decide (g ∈ df.cols))
  if expression_cols.isEmpty then none
  else
    match pandasMedian (df.rows.map (fun r => rowSum r expression_cols)) with
    | none => some ([], 0)
    | some m =>
      let rotulado := df.rows.map (fun r => (r, strictLabel m (rowSum r expression_cols)))
      let filtrado := rotulado.filter (fun p => p.2 != "Excluído")
      some (filtrado, df.rows.length - filtrado.length)

end ManutIL5

namespace PresenceCLC

/-- Inclusive median-split label of `create_survival_groups`
(`survival_presence_CLC.py` and `survival_recruit_CCL24.py`):
`Alta Expressão` when the aggregate is at least the median,
`Baixa Expressão` otherwise. -/
def inclusiveLabel (m s : ℚ) : String :=
  if m ≤ s then "Alta Expressão" else "Baixa Expressão"

/-- Inclusive-mode `create_survival_groups` of `survival_presence_CLC.py`
(the `survival_recruit_CCL24.py` copy differs only in dropping the
temporary sum column): sum the expression of the genes of the list that
exist as columns (`None` if none does) and label every sample, excluding
nobody.  With no rows the median is `NaN` and the `>= NaN` comparison is
false, which the empty map makes moot. -/
def create_survival_groups (df : DataFrame) (gene_list : List String) :
    Option (List (Row × String)) :=
  let expression_cols := gene_list.filter (fun g => decide (g ∈ df.cols))
  if expression_cols.isEmpty then none
  else
    match pandasMedian (df.rows.map (fun r => rowSum r expression_cols)) with
    | none => some (df.rows.map (fun r => (r, "Baixa Expressão")))
    | some m =>
      some (df.rows.map (fun r => (r, inclusiveLabel m (rowSum r expression_cols))))

/-- Guarded log-rank comparison of `plot_survival`
(`survival_presence_CLC.py`; `survival_manut_IL5.py` has the identical
guard): when either cohort holds fewer than 2 samples the figure shows
the insufficient-data message and no test is run; otherwise the raw
time/event vectors of the two cohorts go to `logrank_test`. -/
def plot_survival (rows : List (Row × String)) : SurvOutcome :=
  let alta := rows.filter (fun p => p.2 == "Alta Expressão")
  let baixa := rows.filter (fun p => p.2 == "Baixa Expressão")
  if alta.length < 2 || baixa.length < 2 then SurvOutcome.insuficiente
  else
    SurvOutcome.logrank2
      (alta.map (fun p => p.1.get COL_TEMPO))
      (alta.map (fun p => p.1.get COL_EVENTO))
      (baixa.map (fun p => p.1.get COL_TEMPO))
      (baixa.map (fun p => p.1.get COL_EVENTO))

end PresenceCLC

namespace Manut

/-- Genes of interest of `s3_mamanalysis_manutenção.py`. -/
def GENES_INTERESSE : List String := ["IL5", "IL33", "IL25", "TSLP"]

/-- Comparison-group columns of `s3_mamanalysis_manutenção.py`. -/
structure Grupos where
  g4 : String
  gIL5RA : String
  gIL33 : String
  gIL25 : String
  gTSLP : String
deriving DecidableEq

/-- Boolean `>0` columns the gene loop of `definir_grupos_comparacao`
adds to the dataframe: one `<gene>_expresso` column per gene of
interest. -/
def colunasBool (df : DataFrame) : List (String × List Bool) :=
  GENES_INTERESSE.map
    (fun g => (g ++ "_expresso", df.rows.map (fun r => pandasGtZero (r.get g))))

/-- Column access `df[c]` in boolean context after the gene loop ran:
the freshly created boolean columns are found first, an original numeric
column is read through the `>0` coercion, and any other name raises a
`KeyError`. -/
def getBoolCol (df : DataFrame) (c : String) : Except String (List Bool) :=
  match (colunasBool df).lookup c with
  | some col => Except.ok col
  | none =>
    if c ∈ df.cols then Except.ok (df.rows.map (fun r => pandasGtZero (r.get c)))
    else Except.error ("KeyError: " ++ c)

/-- Group definition of `s3_mamanalysis_manutenção.py`.  The gene loop
creates `IL5_expresso`, `IL33_expresso`, `IL25_expresso` and
`TSLP_expresso` (returning `None` if a gene of interest is missing), but
`g_4_all` and the first individual comparison then read
`df['IL5RA_expresso']` — a column that was never created — so the
uncaught `KeyError` is surfaced in the `Except.error` case. -/
def definir_grupos_comparacao (df : DataFrame) :
    Except String (Option (List (Row × Grupos))) :=
  if GENES_INTERESSE.all (fun g => decide (g ∈ df.cols)) then do
    let cIL5RA ← getBoolCol df "IL5RA_expresso"
    let cIL33 ← getBoolCol df "IL33_expresso"
    let cIL25 ← getBoolCol df "IL25_expresso"
    let cTSLP ← getBoolCol df "TSLP_expresso"
    let g4 := (cIL5RA.zip (cIL33.zip (cIL25.zip cTSLP))).map
      (fun q => q.1 && q.2.1 && q.2.2.1 && q.2.2.2)
    Except.ok (some ((((df.rows.zip g4).zip cIL5RA).zip ((cIL33.zip cIL25).zip cTSLP)).map
      (fun p =>
        (p.1.1.1,
         { g4 := if p.1.1.2 then "IL5RA_IL33_IL25_TSLP" else "Demais"
           gIL5RA := if p.1.2 then "Expressa IL5RA" else "Não Expressa IL5RA"
           gIL33 := if p.2.1.1 then "Expressa IL33" else "Não Expressa IL33"
           gIL25 := if p.2.1.2 then "Expressa IL25" else "Não Expressa IL25"
           gTSLP := if p.2.2 then "Expressa TSLP" else "Não Expressa TSLP" }))))
  else Except.ok none

end Manut

namespace SampleType

/-- Wilson score interval margin of
`calcular_intervalo_confianca_wilson` (`sample_type_plotandexcel.py`):
`k` successes out of `n` trials, `z` the normal quantile
`norm.ppf(1 - alfa/2)` computed externally by scipy (a positive number,
about 1.96 at the default 95% level).  Returns `0.0` for `n = 0`, and
otherwise the distance between the observed proportion and the lower
Wilson bound. -/
noncomputable def calcular_intervalo_confianca_wilson (k n : ℕ) (z : ℝ) : ℝ :=
  if n = 0 then 0
  else
    let p : ℝ := k / n
    let termo1 := p + z * z / (2 * n)
    let termo2 := z * Real.sqrt (p * (1 - p) / n + z * z / (4 * (n * n)))
    let denominador := 1 + z * z / n
    p - (termo1 - termo2) / denominador

end SampleType

section Helpers

/-- Label facts used to evaluate the string comparisons of the cohort
labels inside proofs. -/
theorem alta_bne_excluido : (("Alta Expressão" : String) != "Excluído") = true := by decide

theorem baixa_bne_excluido : (("Baixa Expressão" : String) != "Excluído") = true := by decide

theorem excluido_bne_excluido : (("Excluído" : String) != "Excluído") = false := by decide

theorem alta_beq_alta : (("Alta Expressão" : String) == "Alta Expressão") = true := by decide

theorem baixa_beq_alta : (("Baixa Expressão" : String) == "Alta Expressão") = false := by decide

theorem alta_beq_baixa : (("Alta Expressão" : String) == "Baixa Expressão") = false := by decide

theorem baixa_beq_baixa : (("Baixa Expressão" : String) == "Baixa Expressão") = true := by decide

theorem alta_ne_baixa : ("Alta Expressão" : String) ≠ "Baixa Expressão" := by decide

end Helpers

/-- C1: for every sample of the dataframe and every gene column present in
the dataset, the derived boolean expressed state is `value > 0` exactly: a
present value is classified expressed iff it is strictly positive, a value
of exactly 0 is not expressed (no other threshold or epsilon appears), and
the derived column of `s2_mamanalysis_geneseos.py` holds precisely this
boolean for the sample. -/
theorem c1_expressed_iff_positive (df : DataFrame) (gene : String) (r : Row)
    (hg : gene ∈ df.cols) (hr : r ∈ df.rows) :
    (pandasGtZero (r.get gene) = true ↔ ∃ x, r.get gene = some x ∧ 0 < x) ∧
    (r.get gene = some 0 → pandasGtZero (r.get gene) = false) ∧
    pandasGtZero (r.get gene) ∈ GenesEos.colExpresso df gene := by
  refine ⟨?_, ?_, ?_⟩
  · cases h : r.get gene with
    | none => simp [pandasGtZero]
    | some x => simp [pandasGtZero]
  · intro h
    simp [h, pandasGtZero]
  · exact List.mem_map.mpr ⟨r, hr, rfl⟩

/-- Concrete sample used by the C1 witness. -/
def c1Row : Row := ⟨[("CLC", some 2)], none⟩

/-- Concrete dataframe used by the C1 witness. -/
def c1DF : DataFrame := ⟨["CLC"], [c1Row]⟩

/-- Witness for C1 at a concrete one-sample dataframe. -/
theorem c1_expressed_iff_positive_witness :
    (pandasGtZero (c1Row.get "CLC") = true ↔ ∃ x, c1Row.get "CLC" = some x ∧ 0 < x) ∧
    (c1Row.get "CLC" = some 0 → pandasGtZero (c1Row.get "CLC") = false) ∧
    pandasGtZero (c1Row.get "CLC") ∈ GenesEos.colExpresso c1DF "CLC" :=
  c1_expressed_iff_positive c1DF "CLC" c1Row (by decide) (by decide)

/-- Concrete sample for C4 expressing every configured gene of
`s3_mamanalysis_manutenção.py`. -/
def c4Row : Row := ⟨[("IL5", some 1), ("IL33", some 1), ("IL25", some 1), ("TSLP", some 1)], none⟩

/-- Concrete dataframe for C4 containing exactly the configured genes of
interest of `s3_mamanalysis_manutenção.py`. -/
def c4DF : DataFrame := ⟨["IL5", "IL33", "IL25", "TSLP"], [c4Row]⟩

/-- C4: on a dataframe holding every configured gene of interest of
`s3_mamanalysis_manutenção.py` (`IL5`, `IL33`, `IL25`, `TSLP`), with the
single sample expressing all four, `definir_grupos_comparacao` does not
classify the sample into the AND-group at all: building `g_4_all` reads
the column `IL5RA_expresso`, which the gene loop never created (it
created `IL5_expresso`), so the function raises an uncaught `KeyError`
instead of labelling the sample. -/
theorem c4_and_group_keyerror :
    Manut.definir_grupos_comparacao c4DF = Except.error "KeyError: IL5RA_expresso" := by
  rfl


/-- Characterisation of the strict median-split label. -/
theorem strictLabel_spec (m s : ℚ) :
    (ManutIL5.strictLabel m s = "Alta Expressão" ↔ m < s) ∧
    (ManutIL5.strictLabel m s = "Baixa Expressão" ↔ s < m) ∧
    (ManutIL5.strictLabel m s = "Excluído" ↔ s = m) := by
  rcases lt_trichotomy s m with h | h | h
  · simp [ManutIL5.strictLabel, h, not_lt.mpr h.le, h.ne]
  · simp [ManutIL5.strictLabel, h, lt_irrefl]
  · simp [ManutIL5.strictLabel, h, not_lt.mpr h.le, h.ne']

/-- Counting facts about the strict median split: the cohort labels of the
filtered list count the rows strictly above and strictly below the cut,
and the dropped rows are exactly the ones at the cut. -/
theorem manut_strict_counts (m : ℚ) (cs : List String) (rows : List Row) :
    ((rows.map (fun r => (r, ManutIL5.strictLabel m (rowSum r cs)))).filter
        (fun p => p.2 != "Excluído")).countP (fun p => p.2 == "Alta Expressão") =
      rows.countP (fun r => decide (m < rowSum r cs)) ∧
    ((rows.map (fun r => (r, ManutIL5.strictLabel m (rowSum r cs)))).filter
        (fun p => p.2 != "Excluído")).countP (fun p => p.2 == "Baixa Expressão") =
      rows.countP (fun r => decide (rowSum r cs < m)) ∧
    ((rows.map (fun r => (r, ManutIL5.strictLabel m (rowSum r cs)))).filter
        (fun p => p.2 != "Excluído")).length +
      rows.countP (fun r => rowSum r cs == m) = rows.length ∧
    ((rows.map (fun r => (r, ManutIL5.strictLabel m (rowSum r cs)))).filter
        (fun p => p.2 != "Excluído")).length =
      rows.countP (fun r => decide (m < rowSum r cs)) +
        rows.countP (fun r => decide (rowSum r cs < m)) := by
  induction rows with
  | nil => simp
  | cons r rs ih =>
    obtain ⟨ih1, ih2, ih3, ih4⟩ := ih
    rcases lt_trichotomy (rowSum r cs) m with h | h | h
    · have hlab : ManutIL5.strictLabel m (rowSum r cs) = "Baixa Expressão" := by
        simp [ManutIL5.strictLabel, h, not_lt.mpr h.le]
      refine ⟨?_, ?_, ?_, ?_⟩ <;>
        simp [List.filter_cons, List.countP_cons, hlab, h, not_lt.mpr h.le, h.ne,
          beq_iff_eq, ih1, ih2, ih3, ih4] <;> omega
    · have hlab : ManutIL5.strictLabel m m = "Excluído" := by
        simp [ManutIL5.strictLabel, lt_irrefl]
      refine ⟨?_, ?_, ?_, ?_⟩ <;>
        simp [List.filter_cons, List.countP_cons, h, hlab, lt_irrefl,
          beq_iff_eq, ih1, ih2, ih3, ih4] <;> omega
    · have hlab : ManutIL5.strictLabel m (rowSum r cs) = "Alta Expressão" := by
        simp [ManutIL5.strictLabel, h]
      refine ⟨?_, ?_, ?_, ?_⟩ <;>
        simp [List.filter_cons, List.countP_cons, hlab, h, not_lt.mpr h.le, h.ne',
          beq_iff_eq, ih1, ih2, ih3, ih4] <;> omega

/-- C2: strict median-split stratification of `survival_manut_IL5.py`.
With median `m` of the per-sample aggregate over the gene list, the
returned cohort set labels exactly the samples strictly above `m` as
`Alta Expressão` and strictly below `m` as `Baixa Expressão`, no retained
sample sits at the median, the reported exclusion count is precisely the
number of samples whose aggregate equals `m`, and
`|High| + |Low| + |Excluded| = |S|`. -/
theorem c2_strict_median_split (df : DataFrame) (gene_list : List String) (m : ℚ)
    (hall : ∀ g ∈ gene_list, g ∈ df.cols) (hne : gene_list ≠ [])
    (hm : pandasMedian (df.rows.map (fun r => rowSum r gene_list)) = some m) :
    ∀ filtrado cnt, ManutIL5.create_survival_groups df gene_list = some (filtrado, cnt) →
      (∀ p ∈ filtrado,
        p.1 ∈ df.rows ∧
        (p.2 = "Alta Expressão" ↔ m < rowSum p.1 gene_list) ∧
        (p.2 = "Baixa Expressão" ↔ rowSum p.1 gene_list < m) ∧
        rowSum p.1 gene_list ≠ m) ∧
      filtrado.countP (fun p => p.2 == "Alta Expressão") =
        df.rows.countP (fun r => decide (m < rowSum r gene_list)) ∧
      filtrado.countP (fun p => p.2 == "Baixa Expressão") =
        df.rows.countP (fun r => decide (rowSum r gene_list < m)) ∧
      cnt = df.rows.countP (fun r => rowSum r gene_list == m) ∧
      filtrado.countP (fun p => p.2 == "Alta Expressão") +
        filtrado.countP (fun p => p.2 == "Baixa Expressão") + cnt = df.rows.length := by
  have hcols : gene_list.filter (fun g => decide (g ∈ df.cols)) = gene_list :=
    List.filter_eq_self.mpr (fun a ha => decide_eq_true (hall a ha))
  have hnemp : gene_list.isEmpty = false := by
    cases gene_list with
    | nil => exact absurd rfl hne
    | cons a l => rfl
  intro filtrado cnt heq
  simp only [ManutIL5.create_survival_groups, hcols, hnemp, Bool.false_eq_true, if_false, hm,
    Option.some.injEq, Prod.mk.injEq] at heq
  obtain ⟨hf, hc⟩ := heq
  subst hf
  subst hc
  obtain ⟨h1, h2, h3, h4⟩ := manut_strict_counts m gene_list df.rows
  refine ⟨?_, h1, h2, by omega, by omega⟩
  intro p hp
  have hlab := (List.mem_filter.mp hp).2
  obtain ⟨r, hr, hpr⟩ := List.mem_map.mp (List.mem_of_mem_filter hp)
  subst hpr
  obtain ⟨s1, s2, s3⟩ := strictLabel_spec m (rowSum r gene_list)
  refine ⟨hr, s1, s2, ?_⟩
  intro hmed
  rw [bne_iff_ne, ne_eq, s3] at hlab
  exact hlab hmed

/-- Single-gene sample used by the median-split witnesses. -/
def rQ (q : ℚ) : Row := ⟨[("G", some q)], none⟩

/-- Three-sample dataframe (values 0, 1, 2, median 1) used by the
median-split witnesses. -/
def c2DF : DataFrame := ⟨["G"], [rQ 0, rQ 1, rQ 2]⟩

/-- Cohort set the strict split returns on `c2DF`. -/
def c2Filtrado : List (Row × String) := [(rQ 0, "Baixa Expressão"), (rQ 2, "Alta Expressão")]

/-- Witness for C2 on the concrete dataframe with aggregates 0, 1, 2 and
median 1: the sample at the median is excluded and counted. -/
theorem c2_strict_median_split_witness :
    (∀ p ∈ c2Filtrado,
      p.1 ∈ c2DF.rows ∧
      (p.2 = "Alta Expressão" ↔ 1 < rowSum p.1 ["G"]) ∧
      (p.2 = "Baixa Expressão" ↔ rowSum p.1 ["G"] < 1) ∧
      rowSum p.1 ["G"] ≠ 1) ∧
    c2Filtrado.countP (fun p => p.2 == "Alta Expressão") =
      c2DF.rows.countP (fun r => decide ((1 : ℚ) < rowSum r ["G"])) ∧
    c2Filtrado.countP (fun p => p.2 == "Baixa Expressão") =
      c2DF.rows.countP (fun r => decide (rowSum r ["G"] < 1)) ∧
    1 = c2DF.rows.countP (fun r => rowSum r ["G"] == 1) ∧
    c2Filtrado.countP (fun p => p.2 == "Alta Expressão") +
      c2Filtrado.countP (fun p => p.2 == "Baixa Expressão") + 1 = c2DF.rows.length :=
  c2_strict_median_split c2DF ["G"] 1 (by decide) (by decide)
    (by norm_num [pandasMedian, sortQ, insertQ, rowSum, Row.get, c2DF, rQ, List.lookup])
    c2Filtrado 1
    (by norm_num [ManutIL5.create_survival_groups, ManutIL5.strictLabel, pandasMedian, sortQ,
      insertQ, rowSum, Row.get, c2DF, rQ, c2Filtrado, List.lookup, List.filter,
      baixa_bne_excluido, alta_bne_excluido])

/-- Characterisation of the inclusive median-split label. -/
theorem inclusiveLabel_spec (m s : ℚ) :
    (PresenceCLC.inclusiveLabel m s = "Alta Expressão" ↔ m ≤ s) ∧
    (PresenceCLC.inclusiveLabel m s = "Baixa Expressão" ↔ s < m) := by
  by_cases h : m ≤ s
  · simp [PresenceCLC.inclusiveLabel, h, not_lt.mpr h]
  · simp [PresenceCLC.inclusiveLabel, h, not_le.mp h]

/-- Counting facts about the inclusive median split. -/
theorem incl_counts (m : ℚ) (cs : List String) (rows : List Row) :
    (rows.map (fun r => (r, PresenceCLC.inclusiveLabel m (rowSum r cs)))).countP
        (fun p => p.2 == "Alta Expressão") =
      rows.countP (fun r => decide (m ≤ rowSum r cs)) ∧
    (rows.map (fun r => (r, PresenceCLC.inclusiveLabel m (rowSum r cs)))).countP
        (fun p => p.2 == "Baixa Expressão") =
      rows.countP (fun r => decide (rowSum r cs < m)) ∧
    (rows.map (fun r => (r, PresenceCLC.inclusiveLabel m (rowSum r cs)))).countP
        (fun p => p.2 == "Alta Expressão") +
      (rows.map (fun r => (r, PresenceCLC.inclusiveLabel m (rowSum r cs)))).countP
        (fun p => p.2 == "Baixa Expressão") = rows.length := by
  induction rows with
  | nil => simp
  | cons r rs ih =>
    obtain ⟨ih1, ih2, ih3⟩ := ih
    by_cases h : m ≤ rowSum r cs
    · have hlab : PresenceCLC.inclusiveLabel m (rowSum r cs) = "Alta Expressão" := by
        simp [PresenceCLC.inclusiveLabel, h]
      refine ⟨?_, ?_, ?_⟩ <;>
        simp [List.countP_cons, hlab, h, not_lt.mpr h, ih1, ih2, ih3] <;> omega
    · have hlab : PresenceCLC.inclusiveLabel m (rowSum r cs) = "Baixa Expressão" := by
        simp [PresenceCLC.inclusiveLabel, h]
      refine ⟨?_, ?_, ?_⟩ <;>
        simp [List.countP_cons, hlab, h, not_le.mp h, ih1, ih2, ih3] <;> omega

/-- C3: inclusive median-split stratification of
`survival_presence_CLC.py` and `survival_recruit_CCL24.py`.  With median
`m` of the per-sample aggregate over the gene list, every sample whose
aggregate is at least `m` is labelled `Alta Expressão` and every sample
strictly below `m` is labelled `Baixa Expressão`; the returned table
keeps every input sample in order (no exclusions) and
`|High| + |Low| = |S|`. -/
theorem c3_inclusive_median_split (df : DataFrame) (gene_list : List String) (m : ℚ)
    (hall : ∀ g ∈ gene_list, g ∈ df.cols) (hne : gene_list ≠ [])
    (hm : pandasMedian (df.rows.map (fun r => rowSum r gene_list)) = some m) :
    ∀ out, PresenceCLC.create_survival_groups df gene_list = some out →
      (∀ p ∈ out,
        (p.2 = "Alta Expressão" ↔ m ≤ rowSum p.1 gene_list) ∧
        (p.2 = "Baixa Expressão" ↔ rowSum p.1 gene_list < m)) ∧
      out.map (fun p => p.1) = df.rows ∧
      out.countP (fun p => p.2 == "Alta Expressão") =
        df.rows.countP (fun r => decide (m ≤ rowSum r gene_list)) ∧
      out.countP (fun p => p.2 == "Alta Expressão") +
        out.countP (fun p => p.2 == "Baixa Expressão") = df.rows.length := by
  have hcols : gene_list.filter (fun g => decide (g ∈ df.cols)) = gene_list :=
    List.filter_eq_self.mpr (fun a ha => decide_eq_true (hall a ha))
  have hnemp : gene_list.isEmpty = false := by
    cases gene_list with
    | nil => exact absurd rfl hne
    | cons a l => rfl
  intro out heq
  simp only [PresenceCLC.create_survival_groups, hcols, hnemp, Bool.false_eq_true, if_false,
    hm, Option.some.injEq] at heq
  subst heq
  obtain ⟨h1, h2, h3⟩ := incl_counts m gene_list df.rows
  refine ⟨?_, ?_, h1, h3⟩
  · intro p hp
    obtain ⟨r, hr, hpr⟩ := List.mem_map.mp hp
    subst hpr
    exact inclusiveLabel_spec m (rowSum r gene_list)
  · rw [List.map_map]
    exact List.map_id'' (fun r => rfl) _

/-- Concrete rows used by the C3 witness: the inclusive split keeps all
three samples of `c2DF`. -/
def c3Out : List (Row × String) :=
  [(rQ 0, "Baixa Expressão"), (rQ 1, "Alta Expressão"), (rQ 2, "Alta Expressão")]

/-- Witness for C3 on the dataframe with aggregates 0, 1, 2 and median 1:
the sample at the median is kept and labelled high. -/
theorem c3_inclusive_median_split_witness :
    (∀ p ∈ c3Out,
      (p.2 = "Alta Expressão" ↔ 1 ≤ rowSum p.1 ["G"]) ∧
      (p.2 = "Baixa Expressão" ↔ rowSum p.1 ["G"] < 1)) ∧
    c3Out.map (fun p => p.1) = c2DF.rows ∧
    c3Out.countP (fun p => p.2 == "Alta Expressão") =
      c2DF.rows.countP (fun r => decide ((1 : ℚ) ≤ rowSum r ["G"])) ∧
    c3Out.countP (fun p => p.2 == "Alta Expressão") +
      c3Out.countP (fun p => p.2 == "Baixa Expressão") = c2DF.rows.length :=
  c3_inclusive_median_split c2DF ["G"] 1 (by decide) (by decide)
    (by norm_num [pandasMedian, sortQ, insertQ, rowSum, Row.get, c2DF, rQ, List.lookup])
    c3Out
    (by norm_num [PresenceCLC.create_survival_groups, PresenceCLC.inclusiveLabel, pandasMedian,
      sortQ, insertQ, rowSum, Row.get, c2DF, rQ, c3Out, List.lookup])

/-- C5: presence-based stratification of `definir_grupos_comparacao`
(`s3_mamanalysis_survival.py`, CLC column): every input sample, including
samples with value exactly 0 or a missing value, appears exactly once in
the grouped table, is labelled `Expressa CLC` exactly when its CLC value
is strictly positive and `Não Expressa CLC` otherwise, belongs to exactly
one of the two cohorts, and the two cohort sizes add up to the number of
samples. -/
theorem count_two_labels {α β : Type} (g : α → β) (lab : β → String) (A B : String)
    (hAB : A ≠ B) (hlab : ∀ a, lab (g a) = A ∨ lab (g a) = B) (l : List α) :
    (l.map g).countP (fun b => lab b == A) + (l.map g).countP (fun b => lab b == B) =
      l.length := by
  induction l with
  | nil => rfl
  | cons a l ih =>
    simp only [List.countP_map] at ih ⊢
    simp only [List.countP_cons, Function.comp_apply, List.length_cons]
    rcases hlab a with h | h
    · have h1 : (lab (g a) == A) = true := by simp [h]
      have h2 : (lab (g a) == B) = false := by
        simp only [h, beq_eq_false_iff_ne, ne_eq]
        exact hAB
      simp [h1, h2]
      omega
    · have h1 : (lab (g a) == A) = false := by
        simp only [h, beq_eq_false_iff_ne, ne_eq]
        exact Ne.symm hAB
      have h2 : (lab (g a) == B) = true := by simp [h]
      simp [h1, h2]
      omega

theorem c5_presence_partition (df : DataFrame)
    (hall : ∀ g ∈ S3Surv.GENES_INTERESSE, g ∈ df.cols) :
    ∀ grouped, S3Surv.definir_grupos_comparacao df = some grouped →
      grouped.map (fun p => p.1) = df.rows ∧
      (∀ p ∈ grouped,
        (p.2.gCLC = "Expressa CLC" ↔ pandasGtZero (p.1.get "CLC") = true) ∧
        (p.2.gCLC = "Expressa CLC" ∨ p.2.gCLC = "Não Expressa CLC") ∧
        ¬(p.2.gCLC = "Expressa CLC" ∧ p.2.gCLC = "Não Expressa CLC")) ∧
      grouped.countP (fun p => p.2.gCLC == "Expressa CLC") +
        grouped.countP (fun p => p.2.gCLC == "Não Expressa CLC") = df.rows.length := by
  have hcond : S3Surv.GENES_INTERESSE.all (fun g => decide (g ∈ df.cols)) = true := by
    rw [List.all_eq_true]
    exact fun g hg => decide_eq_true (hall g hg)
  intro grouped heq
  simp only [S3Surv.definir_grupos_comparacao, hcond, if_true, Option.some.injEq] at heq
  subst heq
  refine ⟨?_, ?_, ?_⟩
  · rw [List.map_map]
    exact List.map_id'' (fun r => rfl) _
  · intro p hp
    obtain ⟨r, hr, hpr⟩ := List.mem_map.mp hp
    subst hpr
    cases hB : pandasGtZero (r.get "CLC")
    · simp [hB]
    · simp [hB]
  · refine count_two_labels _ (fun p : Row × S3Surv.Grupos => p.2.gCLC) "Expressa CLC"
      "Não Expressa CLC" (by decide) ?_ df.rows
    intro r
    cases hB : pandasGtZero (r.get "CLC")
    · right
      simp [hB]
    · left
      simp [hB]

/-- Concrete sample for the C5 witness: PRG2 positive, EPX exactly 0,
CLC positive, IL5RA missing. -/
def c5Row : Row := ⟨[("PRG2", some 1), ("EPX", some 0), ("CLC", some 3), ("IL5RA", none)], none⟩

/-- Concrete dataframe for the C5 witness. -/
def c5DF : DataFrame := ⟨["PRG2", "EPX", "CLC", "IL5RA"], [c5Row]⟩

/-- Grouped table `definir_grupos_comparacao` returns on `c5DF`. -/
def c5Grouped : List (Row × S3Surv.Grupos) :=
  [(c5Row, ⟨"Demais", "Expressa PRG2", "Expressa CLC", "Não Expressa IL5RA", "Não Expressa EPX"⟩)]

/-- Witness for C5 at a concrete dataframe. -/
theorem c5_presence_partition_witness :
    c5Grouped.map (fun p => p.1) = c5DF.rows ∧
    (∀ p ∈ c5Grouped,
      (p.2.gCLC = "Expressa CLC" ↔ pandasGtZero (p.1.get "CLC") = true) ∧
      (p.2.gCLC = "Expressa CLC" ∨ p.2.gCLC = "Não Expressa CLC") ∧
      ¬(p.2.gCLC = "Expressa CLC" ∧ p.2.gCLC = "Não Expressa CLC")) ∧
    c5Grouped.countP (fun p => p.2.gCLC == "Expressa CLC") +
      c5Grouped.countP (fun p => p.2.gCLC == "Não Expressa CLC") = c5DF.rows.length :=
  c5_presence_partition c5DF (by decide) c5Grouped (by decide)

/-- C6 (amended): the two log-rank guards as implemented.  The
standalone `plot_survival` (`survival_presence_CLC.py`,
`survival_manut_IL5.py`) skips the test with the insufficient-data
message precisely when one of the two cohorts has fewer than 2 samples.
The plotting helper `plotar_sobrevida` (`s3_mamanalysis_survival.py`,
`s3_mamanalysis_manutenção.py`) instead skips precisely when, after
dropping rows with missing time/event, no row is left or fewer than two
distinct cohort labels remain — a cohort with a single sample still gets
a log-rank test there. -/
theorem c6_logrank_guards (rows : List (Row × String)) :
    (PresenceCLC.plot_survival rows = SurvOutcome.insuficiente ↔
      rows.countP (fun p => p.2 == "Alta Expressão") < 2 ∨
      rows.countP (fun p => p.2 == "Baixa Expressão") < 2) ∧
    (S3Surv.plotar_sobrevida rows = SurvOutcome.insuficiente ↔
      S3Surv.sobrevidaKept rows = [] ∨
      (sortedUnique ((S3Surv.sobrevidaKept rows).map (fun p => p.2))).length < 2) := by
  constructor
  · rw [List.countP_eq_length_filter, List.countP_eq_length_filter]
    simp only [PresenceCLC.plot_survival]
    split_ifs with h
    · simp only [decide_eq_true_eq, Bool.or_eq_true] at h
      simp [h]
    · simp only [decide_eq_true_eq, Bool.or_eq_true] at h
      push_neg at h
      simp [h, not_or, not_lt]
  · simp only [S3Surv.plotar_sobrevida]
    split_ifs with h1 h2
    · simp only [Bool.or_eq_true, List.isEmpty_iff, decide_eq_true_eq] at h1
      simp [h1]
    · simp only [Bool.or_eq_true, List.isEmpty_iff, decide_eq_true_eq] at h1
      push_neg at h1
      simp [h1, not_or, not_lt]
    · simp only [Bool.or_eq_true, List.isEmpty_iff, decide_eq_true_eq] at h1
      push_neg at h1
      simp [h1, not_or, not_lt]

/-- Labelled sample with survival data, used by the C6 counterexample. -/
def c6Par (t e : ℚ) (lab : String) : Row × String :=
  (⟨[(COL_TEMPO, some t), (COL_EVENTO, some e)], none⟩, lab)

/-- Three labelled samples: one cohort of size 1, one of size 2. -/
def c6Rows : List (Row × String) :=
  [c6Par 1 1 "Expressa CLC", c6Par 2 0 "Não Expressa CLC", c6Par 3 1 "Não Expressa CLC"]

/-- C6 counterexample: `plotar_sobrevida` of `s3_mamanalysis_survival.py`
computes a two-sample log-rank test on `c6Rows` (handing the external
test the month-converted time vectors and the event vectors) although the
first cohort holds a single sample, where the claim requires at least 2
samples in each cohort for the test to be computed. -/
theorem c6_counterexample :
    S3Surv.plotar_sobrevida c6Rows =
      SurvOutcome.logrank2 [some (25 / 761)] [some 1] [some (50 / 761), some (75 / 761)]
        [some 0, some 1] ∧
    c6Rows.countP (fun p => p.2 == "Expressa CLC") = 1 := by
  constructor
  · have d1 : (("OS_event_nature2012" : String) == "OS_Time_nature2012") = false := by decide
    have d2 : (("Expressa CLC" : String) != "Ignorar") = true := by decide
    have d3 : (("Não Expressa CLC" : String) != "Ignorar") = true := by decide
    have d4 : (("Expressa CLC" : String) == "Expressa CLC") = true := by decide
    have d5 : (("Não Expressa CLC" : String) == "Expressa CLC") = false := by decide
    have d6 : (("Não Expressa CLC" : String) == "Não Expressa CLC") = true := by decide
    have d7 : (("Expressa CLC" : String) == "Não Expressa CLC") = false := by decide
    have s1 : strLe "Não Expressa CLC" "Não Expressa CLC" = true := by decide
    have s2 : strLe "Expressa CLC" "Não Expressa CLC" = true := by decide
    norm_num [S3Surv.plotar_sobrevida, S3Surv.sobrevidaKept, S3Surv.temSobrevida,
      S3Surv.diasParaMeses, sortedUnique, sortStr, insertStr, dedupAdjStr,
      Row.get, COL_TEMPO, COL_EVENTO, c6Rows, c6Par, List.lookup, List.filter,
      d1, d2, d3, d4, d5, d6, d7, s1, s2]
    simp [d4, d5, d6, d7, List.filter]
    norm_num [List.lookup, d1]
  · decide

/-- A 0/1-valued event column sums to the number of events. -/
theorem sum_binary_events (l : List Row)
    (h : ∀ r ∈ l, r.get COL_EVENTO = some 0 ∨ r.get COL_EVENTO = some 1) :
    (l.map (fun r => (r.get COL_EVENTO).getD 0)).sum =
      (l.countP (fun r => r.get COL_EVENTO == some 1) : ℚ) := by
  induction l with
  | nil => simp
  | cons r rs ih =>
    have hrs : ∀ x ∈ rs, x.get COL_EVENTO = some 0 ∨ x.get COL_EVENTO = some 1 :=
      fun x hx => h x (List.mem_cons_of_mem r hx)
    rcases h r (List.mem_cons_self r rs) with h0 | h1
    · norm_num [List.countP_cons, h0, ih hrs]
    · norm_num [List.countP_cons, h1, ih hrs]
      ring

/-- C7: Cox guard of the `Correlacao_Continua` rows of
`s2_mamanalysis_geneseos.py`.  Assuming the event column is binary where
present, a row is reported as insufficient data (no hazard ratio, no fit)
exactly when it is not the case that more than 10 valid rows survive the
missing-value drop and at least 2 of them carry an event; otherwise the
Cox model is fitted. -/
theorem c7_cox_guard (rows : List Row) (gene : String)
    (hbin : ∀ r ∈ rows, r.get COL_EVENTO = none ∨ r.get COL_EVENTO = some 0 ∨
      r.get COL_EVENTO = some 1) :
    (GenesEos.coxAnalise rows gene = GenesEos.CoxOutcome.insuficiente ↔
      ¬(10 < rows.countP (GenesEos.coxRowValid gene) ∧
        2 ≤ rows.countP (fun r =>
          GenesEos.coxRowValid gene r && (r.get COL_EVENTO == some 1)))) := by
  have hvalid : ∀ r ∈ rows.filter (GenesEos.coxRowValid gene),
      r.get COL_EVENTO = some 0 ∨ r.get COL_EVENTO = some 1 := by
    intro r hr
    have hv := List.of_mem_filter hr
    rcases hbin r (List.mem_of_mem_filter hr) with h | h | h
    · exfalso
      simp [GenesEos.coxRowValid, h] at hv
    · exact Or.inl h
    · exact Or.inr h
  have hsum := sum_binary_events _ hvalid
  have hcount : (rows.filter (GenesEos.coxRowValid gene)).countP
      (fun r => r.get COL_EVENTO == some 1) =
      rows.countP (fun r => GenesEos.coxRowValid gene r && (r.get COL_EVENTO == some 1)) := by
    rw [List.countP_filter]
    exact List.countP_congr (fun x _ => by simp [Bool.and_comm])
  simp only [GenesEos.coxAnalise]
  by_cases h : 10 < (rows.filter (GenesEos.coxRowValid gene)).length ∧
      1 < ((rows.filter (GenesEos.coxRowValid gene)).map
        (fun r => (r.get COL_EVENTO).getD 0)).sum
  · rw [if_pos h]
    apply iff_of_false
    · simp
    · rw [not_not]
      obtain ⟨hlen, hev⟩ := h
      rw [hsum] at hev
      constructor
      · rw [List.countP_eq_length_filter]
        exact hlen
      · rw [← hcount]
        exact_mod_cast hev
  · rw [if_neg h]
    apply iff_of_true rfl
    intro hc
    apply h
    obtain ⟨h1, h2⟩ := hc
    constructor
    · rw [List.countP_eq_length_filter] at h1
      exact h1
    · rw [hsum]
      rw [← hcount] at h2
      exact_mod_cast h2

/-- Row with time, binary event and one gene value, used by the C7
witness. -/
def c7Row (t e g : ℚ) : Row := ⟨[(COL_TEMPO, some t), (COL_EVENTO, some e), ("G", some g)], none⟩

/-- Twelve complete rows with exactly two events. -/
def c7Rows : List Row :=
  [c7Row 1 1 1, c7Row 2 1 1, c7Row 3 0 1, c7Row 4 0 1, c7Row 5 0 1, c7Row 6 0 1,
   c7Row 7 0 1, c7Row 8 0 1, c7Row 9 0 1, c7Row 10 0 1, c7Row 11 0 1, c7Row 12 0 1]

/-- Witness for C7 at twelve valid rows with two events. -/
theorem c7_cox_guard_witness :
    GenesEos.coxAnalise c7Rows "G" = GenesEos.CoxOutcome.insuficiente ↔
      ¬(10 < c7Rows.countP (GenesEos.coxRowValid "G") ∧
        2 ≤ c7Rows.countP (fun r =>
          GenesEos.coxRowValid "G" r && (r.get COL_EVENTO == some 1))) :=
  c7_cox_guard c7Rows "G" (by decide)

/-- C8: chi-square fallback of `plotar_pam50`
(`s3_mamanalysis_survival.py`; the `s3_mamanalysis_manutenção.py` copy is
identical).  Once the data survives the pre-test guard, whenever the
external `chi2_contingency` raises on the contingency table — as it does
on degenerate expected frequencies such as an all-zero row or column —
the comparison reports the 0.99 sentinel p-value with the condition
logged, and whenever the test returns a p-value that p-value is reported
unchanged. -/
theorem c8_chi2_fallback (chi2 : List (List ℕ) → Except Unit ℚ) (rows : List (Row × String))
    (hne : S3Surv.pam50Kept rows ≠ [])
    (hsub : 2 ≤ (sortedUnique ((S3Surv.pam50Kept rows).map
      (fun p => (p.1.subtype).getD ""))).length) :
    (∀ e, chi2 (S3Surv.pam50Tabela rows) = Except.error e →
      S3Surv.plotar_pam50 chi2 rows = ChiOutcome.pvalor (99 / 100) true) ∧
    (∀ p, chi2 (S3Surv.pam50Tabela rows) = Except.ok p →
      S3Surv.plotar_pam50 chi2 rows = ChiOutcome.pvalor p false) := by
  have hg : ((S3Surv.pam50Kept rows).isEmpty ||
      decide ((sortedUnique ((S3Surv.pam50Kept rows).map
        (fun p => (p.1.subtype).getD ""))).length < 2)) = false := by
    rw [Bool.or_eq_false_iff]
    constructor
    · exact List.isEmpty_eq_false.mpr hne
    · exact decide_eq_false (not_lt.mpr hsub)
  constructor
  · intro e he
    simp only [S3Surv.plotar_pam50, hg, Bool.false_eq_true, if_false, he]
  · intro p hp
    simp only [S3Surv.plotar_pam50, hg, Bool.false_eq_true, if_false, hp]

/-- External chi-square stub that always raises, used by the C8 witness. -/
def c8Chi : List (List ℕ) → Except Unit ℚ := fun _ => Except.error ()

/-- Labelled sample with a subtype, used by the C8 witness. -/
def c8Par (lab subt : String) : Row × String := (⟨[], some subt⟩, lab)

/-- Two samples in different cohorts with different subtypes. -/
def c8Rows : List (Row × String) := [c8Par "Demais" "LumA", c8Par "CLC_EPX_IL5RA_PRG2" "Basal"]

/-- Witness for C8: with a raising chi-square the sentinel 0.99 is
reported and logged. -/
theorem c8_chi2_fallback_witness :
    S3Surv.plotar_pam50 c8Chi c8Rows = ChiOutcome.pvalor (99 / 100) true :=
  (c8_chi2_fallback c8Chi c8Rows (by decide) (by decide)).1 () rfl

/-- C9 (amended): a gene of interest missing from the dataset makes
`definir_grupos_comparacao` of `s3_mamanalysis_survival.py` return `None`
— the comparison is never computed with a default expression of zero —
but the abort is run-wide, not per comparison: `main` checks the
essential columns, returns before defining groups, and so executes none
of the five comparisons of the run (while still terminating normally
rather than crashing). -/
theorem c9_missing_gene_aborts (df : DataFrame) (gene : String)
    (hg : gene ∈ S3Surv.GENES_INTERESSE) (hmiss : gene ∉ df.cols) :
    S3Surv.definir_grupos_comparacao df = none ∧
    S3Surv.comparacoesExecutadas df = [] ∧
    ∀ cs, S3Surv.mainModel df ≠ S3Surv.MainResult.executa cs := by
  have hall : S3Surv.GENES_INTERESSE.all (fun g => decide (g ∈ df.cols)) = false := by
    rw [List.all_eq_false]
    exact ⟨gene, hg, by simp [hmiss]⟩
  have hdef : S3Surv.definir_grupos_comparacao df = none := by
    simp only [S3Surv.definir_grupos_comparacao, hall, Bool.false_eq_true, if_false]
  have hfal : gene ∈ S3Surv.colunas_essenciais.filter (fun c => decide (c ∉ df.cols)) :=
    List.mem_filter.mpr ⟨List.mem_append_left _ hg, by simp [hmiss]⟩
  have hfal2 : (S3Surv.colunas_essenciais.filter
      (fun c => decide (c ∉ df.cols))).isEmpty = false :=
    List.isEmpty_eq_false.mpr (List.ne_nil_of_mem hfal)
  have hmain : S3Surv.mainModel df = S3Surv.MainResult.colunasFaltando
      (S3Surv.colunas_essenciais.filter (fun c => decide (c ∉ df.cols))) := by
    simp only [S3Surv.mainModel, hfal2, Bool.false_eq_true, if_false]
  refine ⟨hdef, ?_, ?_⟩
  · simp [S3Surv.comparacoesExecutadas, hmain]
  · intro cs hcontra
    rw [hmain] at hcontra
    exact S3Surv.MainResult.noConfusion hcontra

/-- Dataframe for C9: clinical columns and three of the four genes of
interest are present, `IL5RA` is missing. -/
def c9DF : DataFrame := ⟨["PRG2", "EPX", "CLC", COL_TEMPO, COL_EVENTO, COL_PAM50], []⟩

/-- C9 counterexample: with `IL5RA` absent (and `CLC` present), the run
of `s3_mamanalysis_survival.py` executes no comparison at all — the CLC
comparison, which does not involve the missing gene, is no exception —
refuting that other comparisons of the same run still execute. -/
theorem c9_counterexample :
    S3Surv.mainModel c9DF = S3Surv.MainResult.colunasFaltando ["IL5RA"] ∧
    S3Surv.comparacoesExecutadas c9DF = [] ∧
    "CLC" ∈ c9DF.cols := by
  refine ⟨by decide, by decide, by decide⟩

/-- Witness for C9 on the concrete dataframe missing `IL5RA`. -/
theorem c9_missing_gene_aborts_witness :
    S3Surv.definir_grupos_comparacao c9DF = none ∧
    S3Surv.comparacoesExecutadas c9DF = [] :=
  ⟨(c9_missing_gene_aborts c9DF "IL5RA" (by decide) (by decide)).1,
   (c9_missing_gene_aborts c9DF "IL5RA" (by decide) (by decide)).2.1⟩

/-- The Wilson margin is non-negative whenever the proportion lies in
the unit interval, the quantile is non-negative and the sample size is
positive. -/
theorem wilson_nonneg_aux (p z N : ℝ) (hp0 : 0 ≤ p) (hp1 : p ≤ 1) (hz : 0 ≤ z) (hN : 0 < N) :
    0 ≤ p - ((p + z * z / (2 * N)) -
      z * Real.sqrt (p * (1 - p) / N + z * z / (4 * (N * N)))) / (1 + z * z / N) := by
  have hden : (0:ℝ) < 1 + z * z / N := by positivity
  have h1p : (0:ℝ) ≤ 1 - p := by linarith
  have hA : (0:ℝ) ≤ p * (1 - p) / N + z * z / (4 * (N * N)) := by
    have h2 : 0 ≤ p * (1 - p) / N := div_nonneg (mul_nonneg hp0 h1p) hN.le
    have h3 : 0 ≤ z * z / (4 * (N * N)) := by positivity
    linarith
  rw [sub_nonneg, div_le_iff hden]
  have hxsq : (z * (1 / 2 - p) / N) ^ 2 ≤ p * (1 - p) / N + z * z / (4 * (N * N)) := by
    have hNN : (0:ℝ) < N ^ 2 := by positivity
    rw [div_pow, div_le_iff hNN]
    have hexp : (p * (1 - p) / N + z * z / (4 * (N * N))) * N ^ 2 =
        p * (1 - p) * N + z * z / 4 := by
      field_simp
      ring
    rw [hexp]
    have e1 : 0 ≤ p * (1 - p) * N := mul_nonneg (mul_nonneg hp0 h1p) hN.le
    have e2 : 0 ≤ p * (1 - p) * (z * z) := mul_nonneg (mul_nonneg hp0 h1p) (mul_self_nonneg z)
    nlinarith [e1, e2]
  have hxle : z * (1 / 2 - p) / N ≤
      Real.sqrt (p * (1 - p) / N + z * z / (4 * (N * N))) := by
    calc z * (1 / 2 - p) / N ≤ |z * (1 / 2 - p) / N| := le_abs_self _
    _ = Real.sqrt ((z * (1 / 2 - p) / N) ^ 2) := (Real.sqrt_sq_eq_abs _).symm
    _ ≤ Real.sqrt (p * (1 - p) / N + z * z / (4 * (N * N))) := Real.sqrt_le_sqrt hxsq
  have key : z * z / (2 * N) - p * (z * z / N) ≤
      z * Real.sqrt (p * (1 - p) / N + z * z / (4 * (N * N))) := by
    have hx : z * z / (2 * N) - p * (z * z / N) = z * (z * (1 / 2 - p) / N) := by
      field_simp
      ring
    rw [hx]
    exact mul_le_mul_of_nonneg_left hxle hz
  have hexp2 : p * (1 + z * z / N) = p + p * (z * z / N) := by ring
  rw [hexp2]
  linarith [key]

/-- C10: Wilson-score error bar of `sample_type_plotandexcel.py`.  For
`k` successes out of `n` trials and a non-negative normal quantile
(`norm.ppf(0.975)` is about 1.96), the returned margin — the observed
proportion minus the lower Wilson bound — is non-negative, the margin at
`k = 0` is exactly 0, and `n = 0` returns 0.0 rather than dividing by
zero. -/
theorem c10_wilson_margin (k n : ℕ) (z : ℝ) (hk : k ≤ n) (hz : 0 ≤ z) :
    0 ≤ SampleType.calcular_intervalo_confianca_wilson k n z ∧
    SampleType.calcular_intervalo_confianca_wilson 0 n z = 0 ∧
    SampleType.calcular_intervalo_confianca_wilson k 0 z = 0 := by
  refine ⟨?_, ?_, ?_⟩
  · rcases Nat.eq_zero_or_pos n with hn | hn
    · subst hn
      simp [SampleType.calcular_intervalo_confianca_wilson]
    · have hn0 : n ≠ 0 := Nat.pos_iff_ne_zero.mp hn
      have hNpos : (0:ℝ) < n := by exact_mod_cast hn
      have hp0 : (0:ℝ) ≤ (k:ℝ) / n := by positivity
      have hp1 : (k:ℝ) / n ≤ 1 := by
        rw [div_le_one hNpos]
        exact_mod_cast hk
      simp only [SampleType.calcular_intervalo_confianca_wilson, hn0, if_false]
      exact wilson_nonneg_aux ((k:ℝ) / n) z n hp0 hp1 hz hNpos
  · rcases Nat.eq_zero_or_pos n with hn | hn
    · subst hn
      simp [SampleType.calcular_intervalo_confianca_wilson]
    · have hn0 : n ≠ 0 := Nat.pos_iff_ne_zero.mp hn
      have hNpos : (0:ℝ) < n := by exact_mod_cast hn
      simp only [SampleType.calcular_intervalo_confianca_wilson, hn0, if_false, Nat.cast_zero,
        zero_div]
      have hsqrt : Real.sqrt ((0:ℝ) * (1 - 0) / n + z * z / (4 * ((n:ℝ) * n))) =
          z / (2 * n) := by
        rw [show (0:ℝ) * (1 - 0) / (n:ℝ) + z * z / (4 * ((n:ℝ) * n)) = (z / (2 * n)) ^ 2 by
          field_simp
          ring]
        exact Real.sqrt_sq (by positivity)
      rw [hsqrt]
      field_simp
  · simp [SampleType.calcular_intervalo_confianca_wilson]

/-- Witness for C10 at `k = 3`, `n = 10`, `z = 2`. -/
theorem c10_wilson_margin_witness :
    0 ≤ SampleType.calcular_intervalo_confianca_wilson 3 10 2 ∧
    SampleType.calcular_intervalo_confianca_wilson 0 10 2 = 0 ∧
    SampleType.calcular_intervalo_confianca_wilson 3 0 2 = 0 :=
  c10_wilson_margin 3 10 2 (by norm_num) (by norm_num)
